import Mathlib

/-!
# pxrUsdMayaGL / hdRenderer.cpp

A shallow embedding of `UsdMayaGLHdRenderer` (third_party/maya/lib/pxrUsdMayaGL/hdRenderer.cpp).

The C++ methods talk to three outside parties: the OpenGL state machine, the Maya host
(`M3dView`, `MDrawContext`, `MRenderer`) and the bound imaging engine (`UsdImagingGL`).
Every call a method makes on one of them is recorded, in program order, in a list of `Call`s;
what a method reads from them is an explicit argument.  Floating-point payloads (colours,
matrices, boxes) are only ever copied by the dispatch code, so they are carried as the natural
number of their bit pattern.  The one function that computes on floats,
`SubdLevelToComplexity`, is embedded over an exact model of IEEE-754 rounding further down.
-/

namespace PxrUsdMayaGL

/-! ## Payload types -/

/-- Four floats (RGBA), each carried as its bit pattern. -/
structure GfVec4f where
  r : Nat
  g : Nat
  b : Nat
  a : Nat
deriving DecidableEq, Repr

/-- Three doubles, each carried as its bit pattern. -/
structure GfVec3d where
  x : Nat
  y : Nat
  z : Nat
deriving DecidableEq, Repr

/-- A 4x4 matrix of doubles (`MMatrix`, `GfMatrix4d`), carried as its sixteen bit patterns. -/
structure MMatrix where
  cells : List Nat
deriving DecidableEq, Repr

/-- The viewport rectangle `(x, y, width, height)`. -/
structure Viewport where
  x : Int
  y : Int
  width : Int
  height : Int
deriving DecidableEq, Repr

/-- An axis-aligned box, given by two corners. -/
structure MBoundingBox where
  minPt : GfVec3d
  maxPt : GfVec3d
deriving DecidableEq, Repr

/-- A scene path. -/
structure SdfPath where
  text : String
deriving DecidableEq, Repr

/-- The `SdfPathVector` of the source. -/
abbrev SdfPathVector := List SdfPath

/-- A prim handle: what `GetPath()` and `IsValid()` answer, and the identity of the prim data
the handle points at.  `operator!=` of the source is inequality of handles. -/
structure UsdPrim where
  primData : Nat
  path : SdfPath
  isValid : Bool
deriving DecidableEq, Repr

/-! ## Enumerations named by the source -/

/-- The `M3dView::DisplayStyle` enumerators (Maya SDK, M3dView.h). -/
inductive M3dDisplayStyle where
  | kBoundingBox
  | kFlatShaded
  | kGouraudShaded
  | kWireFrame
  | kPoints
deriving DecidableEq, Repr

/-- The `MHWRender::DisplayStatus` enumerators (Maya SDK, MHWGeometryUtilities.h). -/
inductive DisplayStatus where
  | kActive
  | kLive
  | kDormant
  | kInvisible
  | kHilite
  | kTemplate
  | kActiveTemplate
  | kActiveComponent
  | kLead
  | kIntermediateObject
  | kActiveAffected
  | kNoStatus
deriving DecidableEq, Repr

/-- The `MRasterizerState::CullMode` enumerators (Maya SDK, MStateManager.h). -/
inductive CullMode where
  | kCullNone
  | kCullFront
  | kCullBack
deriving DecidableEq, Repr

/-- Modelled from the spec: the draw mode of the render parameters, an enumeration declared
with `UsdImagingGL`, which is not among the sources.  The enumerators are the ones
hdRenderer.cpp names; `other` stands for any further one. -/
inductive DrawMode where
  | DRAW_POINTS
  | DRAW_WIREFRAME
  | DRAW_SHADED_FLAT
  | DRAW_SHADED_SMOOTH
  | DRAW_GEOM_ONLY
  | DRAW_GEOM_FLAT
  | DRAW_GEOM_SMOOTH
  | other (n : Nat)
deriving DecidableEq, Repr

/-- Modelled from the spec: the cull style of the render parameters, an enumeration declared
with `UsdImagingEngine`, which is not among the sources.  The enumerators are the ones
hdRenderer.cpp names; `other` stands for any further one. -/
inductive CullStyle where
  | CULL_STYLE_NOTHING
  | CULL_STYLE_BACK_UNLESS_DOUBLE_SIDED
  | other (n : Nat)
deriving DecidableEq, Repr

/-- Modelled from the spec: the `DRAWING_STYLES` enumeration of hdRenderer.h, which is not
among the sources; the spec gives the pass kinds as Wireframe, Points, ShadedFlat,
ShadedSmooth and BoundingBox.  A request token is a plain `int` in the host API, so `other`
stands for every token that is none of the five enumerators (no `case` of a `switch`
matches it). -/
inductive DrawToken where
  | DRAW_POINTS
  | DRAW_WIREFRAME
  | DRAW_SHADED_FLAT
  | DRAW_SHADED_SMOOTH
  | DRAW_BOUNDING_BOX
  | other (n : Int)
deriving DecidableEq, Repr

/-- The attribute groups named in the `glPushAttrib` masks of the source. -/
inductive AttribBit where
  | GL_CURRENT_BIT
  | GL_LIGHTING_BIT
  | GL_ENABLE_BIT
deriving DecidableEq, Repr

/-- The capabilities the source enables or disables. -/
inductive GLCap where
  | GL_LIGHTING
  | GL_FRAMEBUFFER_SRGB_EXT
deriving DecidableEq, Repr

/-- The matrix stacks the source selects. -/
inductive GLMatrixMode where
  | GL_PROJECTION
  | GL_MODELVIEW
deriving DecidableEq, Repr

/-- The state queries the source issues. -/
inductive GLQuery where
  | GL_CURRENT_COLOR
  | GL_MODELVIEW_MATRIX
  | GL_PROJECTION_MATRIX
deriving DecidableEq, Repr

/-! ## Host constants

The numeric values of the Maya enumerators live in the Maya SDK headers.  The code depends on
them in two places: the display-style word of a frame context is tested bit by bit, and in
`RenderVp2` it is compared with an `M3dView::DisplayStyle` enumerator as an integer.  They are
a parameter of the embedding. -/

/-- The constants of the Maya SDK the source is compiled against. -/
structure MayaApi where
  /-- Value of the preprocessor symbol `MAYA_API_VERSION`. -/
  MAYA_API_VERSION : Nat
  /-- Flag `MFrameContext::kWireFrame`. -/
  kWireFrame : Nat
  /-- Flag `MFrameContext::kBoundingBox`. -/
  kBoundingBox : Nat
  /-- Flag `MFrameContext::kFlatShaded`. -/
  kFlatShaded : Nat
  /-- Flag `MFrameContext::kXray`. -/
  kXray : Nat
  /-- Integer value of the enumerator `M3dView::kGouraudShaded`. -/
  m3dGouraudShaded : Nat

/-- The values of the Maya 2016 SDK: the frame-context flags are `kGouraudShaded = 0x1`,
`kWireFrame = 0x2`, `kBoundingBox = 0x4`, `kXray = 0x40`, `kFlatShaded = 0x100`, and
`M3dView::DisplayStyle` counts its enumerators `kBoundingBox`, `kFlatShaded`,
`kGouraudShaded`, `kWireFrame`, `kPoints` from zero. -/
def maya2016 : MayaApi where
  MAYA_API_VERSION := 201600
  kWireFrame := 2
  kBoundingBox := 4
  kFlatShaded := 256
  kXray := 64
  m3dGouraudShaded := 2

/-- Flag test `word & flag` read as a C condition. -/
def hasFlag (word flag : Nat) : Bool :=
  (word &&& flag) != 0

/-! ## Requests and render parameters -/

/-- A surface shape as the legacy bounding-box draw reads it. -/
structure MPxSurfaceShape where
  isBounded : Bool
  boundingBox : MBoundingBox
deriving DecidableEq, Repr

/-- An `MDrawRequest`: its token, its display style, and the geometry of its draw data
(`none` for a null pointer). -/
structure MDrawRequest where
  token : DrawToken
  displayStyle : M3dDisplayStyle
  geometry : Option MPxSurfaceShape
deriving DecidableEq, Repr

/-- The `RequestData` of the source, with the three members the source reads and writes. -/
structure RequestData where
  fWireframeColor : GfVec4f
  bounds : MBoundingBox
  drawRequest : MDrawRequest
deriving DecidableEq, Repr

/-- The `RequestDataArray` of the source. -/
abbrev RequestDataArray := List RequestData

/-- Modelled from the spec: the render parameters (`UsdImagingGL::RenderParams`, declared
outside the sources), which the spec gives as draw mode, lighting enabled flag, cull style,
override colour and subdivision complexity. -/
structure RenderParams where
  drawMode : DrawMode
  enableLighting : Bool
  cullStyle : CullStyle
  overrideColor : GfVec4f
  complexity : Nat
deriving DecidableEq, Repr

/-! ## Recorded calls -/

/-- An OpenGL (or GLUT) call. `glTranslated` and `glScaled` carry the box whose centre, resp.
width, height and depth, are their arguments. -/
inductive GLCall where
  | glPushAttrib (mask : List AttribBit)
  | glPopAttrib
  | glEnable (cap : GLCap)
  | glDisable (cap : GLCap)
  | glMatrixMode (mode : GLMatrixMode)
  | glPushMatrix
  | glPopMatrix
  | glLoadMatrixd (m : MMatrix)
  | glColor3fv (c : GfVec4f)
  | glTranslated (centreOf : MBoundingBox)
  | glScaled (extentOf : MBoundingBox)
  | glutWireCube
  | glGetFloatv (q : GLQuery)
  | glGetDoublev (q : GLQuery)
deriving DecidableEq, Repr

/-- A call on the bound `UsdImagingGL` instance. -/
inductive RendererCall where
  | SetCameraState (modelView projection : MMatrix) (viewport : Viewport)
  | SetLightingStateFromOpenGL
  | Render (prim : UsdPrim) (params : RenderParams)
  | TestIntersection (view projection : MMatrix) (prim : UsdPrim) (params : RenderParams)
deriving DecidableEq, Repr

/-- Everything a method does to the outside, in program order. -/
inductive Call where
  | gl (c : GLCall)
  | setupLightingGL
  | unsetLightingGL
  | beginGL
  | endGL
  | beginSelect
  | endSelect
  | renderer (c : RendererCall)
deriving DecidableEq, Repr

/-- A graphics-state call: OpenGL itself, or the `px_vp20Utils` lighting helpers. -/
def Call.isGraphics : Call → Bool
  | .gl _ => true
  | .setupLightingGL => true
  | .unsetLightingGL => true
  | _ => false

/-- A call on the bound renderer. -/
def Call.isRenderer : Call → Bool
  | .renderer _ => true
  | _ => false

/-- An attribute-stack push. -/
def Call.isPush : Call → Bool
  | .gl (.glPushAttrib _) => true
  | _ => false

/-- An attribute-stack pop. -/
def Call.isPop : Call → Bool
  | .gl .glPopAttrib => true
  | _ => false

/-- Number of `glPushAttrib` calls in a trace. -/
def pushes (t : List Call) : Nat :=
  t.countP Call.isPush

/-- Number of `glPopAttrib` calls in a trace. -/
def pops (t : List Call) : Nat :=
  t.countP Call.isPop

/-- How a call ended: it returned, or it dereferenced the null `_renderer` pointer. -/
inductive Outcome where
  | returned
  | nullRenderer
deriving DecidableEq, Repr

/-- The observable run of a `void` method. -/
structure Run where
  calls : List Call
  outcome : Outcome
deriving DecidableEq, Repr

/-! ## The host draw context -/

/-- An `MRasterizerState`, as far as its descriptor is read. -/
structure MRasterizerState where
  cullMode : CullMode
deriving DecidableEq, Repr

/-- An `MStateManager`; `getRasterizerState()` may answer a null pointer. -/
structure MStateManager where
  rasterizerState : Option MRasterizerState
deriving DecidableEq, Repr

/-- The process-wide `MRenderer`. -/
structure MRenderer where
  drawAPIIsOpenGL : Bool
deriving DecidableEq, Repr

/-- What `RenderVp2` reads from its `MDrawContext`. -/
structure MDrawContext where
  stateManager : Option MStateManager
  displayStyle : Nat
  worldViewMtx : MMatrix
  projectionMtx : MMatrix
  worldMtx : MMatrix
  viewport : Viewport
deriving DecidableEq, Repr

/-- What `Render` and `TestIntersection` read from their `M3dView`: the camera of the view,
and the matrices OpenGL holds while a selection pass of the view is open. -/
structure M3dView where
  modelViewMatrix : MMatrix
  projectionMatrix : MMatrix
  viewport : Viewport
  selectModelView : MMatrix
  selectProjection : MMatrix
deriving DecidableEq, Repr

/-- What `TestIntersection` hands back: its return value, what it stored through the
`hitPoint` pointer (`none` when nothing was stored), and the calls it made. -/
structure PickResult where
  hit : Bool
  hitPoint : Option GfVec3d
  calls : List Call
deriving DecidableEq, Repr

/-! ## Floating-point arithmetic

`SubdLevelToComplexity` computes on `float` and `double`.  Both are modelled by the exact
rational each finite value denotes, and every operation (conversion from `int`, product, sum,
conversion from `double` to `float`) by the exact operation followed by IEEE-754
round-to-nearest-even into the format of its result, which is how the expression is evaluated
when every operation is rounded to its own type.  The exponent range is left unbounded above;
the argument of `SubdLevelToComplexity` is a C `int`, whose images stay below `2 ^ 28`, far
from the overflow threshold of either format. -/

/-- The integer nearest to `q`, the even one of the two when `q` lies halfway. -/
def roundHalfEven (q : ℚ) : ℤ :=
  if q - ⌊q⌋ < 1 / 2 then ⌊q⌋
  else if 1 / 2 < q - ⌊q⌋ then ⌊q⌋ + 1
  else if ⌊q⌋ % 2 = 0 then ⌊q⌋
  else ⌊q⌋ + 1

/-- Exponent of the binade of a positive `x` in a binary format whose smallest normal
exponent is `emin`. -/
def binade (emin : ℤ) (x : ℚ) : ℤ :=
  max (Int.log 2 x) emin

/-- Distance between neighbouring numbers of the format around a positive `x`; `t` is the
number of fraction bits. -/
def ulp (t : ℕ) (emin : ℤ) (x : ℚ) : ℚ :=
  2 ^ (binade emin x - t)

/-- Round-to-nearest-even of a magnitude `x ≥ 0`. -/
def roundMagnitude (t : ℕ) (emin : ℤ) (x : ℚ) : ℚ :=
  roundHalfEven (x / ulp t emin x) * ulp t emin x

/-- IEEE-754 round-to-nearest-even into the binary format with `t` fraction bits and smallest
normal exponent `emin`, on exact values; the exponent range is not bounded above. -/
def roundNearest (t : ℕ) (emin : ℤ) (q : ℚ) : ℚ :=
  if q < 0 then -roundMagnitude t emin (-q) else roundMagnitude t emin q

/-- Rounding to `float` (binary32). -/
def toFloat (q : ℚ) : ℚ := roundNearest 23 (-126) q

/-- Rounding to `double` (binary64). -/
def toDouble (q : ℚ) : ℚ := roundNearest 52 (-1022) q

/-! ## The renderer object -/

/-- A `UsdImagingGL` instance, identified by the arguments its constructor is called with
(line 54). -/
structure UsdImagingGL where
  rootPath : SdfPath
  excludedPaths : SdfPathVector
deriving DecidableEq, Repr

/-- The data members of `UsdMayaGLHdRenderer` the source reads and writes; `_renderer` is a
scoped pointer, `none` when null. -/
structure UsdMayaGLHdRenderer where
  _renderedPrim : UsdPrim
  _excludePrimPaths : SdfPathVector
  _renderer : Option UsdImagingGL
deriving DecidableEq, Repr

/-- What `CheckRendererSetup` leaves behind: the object, and the instances it constructed. -/
structure SetupResult where
  self : UsdMayaGLHdRenderer
  constructed : List UsdImagingGL
deriving DecidableEq, Repr

namespace UsdMayaGLHdRenderer

/-- Embedding of `UsdMayaGLHdRenderer::CheckRendererSetup` (lines 47-59). -/
def CheckRendererSetup (self : UsdMayaGLHdRenderer) (usdPrim : UsdPrim)
    (excludePaths : SdfPathVector) : SetupResult :=
  if usdPrim ≠ self._renderedPrim ∨ excludePaths ≠ self._excludePrimPaths then
    let tmpRenderer : UsdImagingGL := ⟨usdPrim.path, excludePaths⟩
    { self := { _renderedPrim := usdPrim
                _excludePrimPaths := excludePaths
                _renderer := some tmpRenderer }
      constructed := [tmpRenderer] }
  else
    { self := self, constructed := [] }

/-- The selection test of `GenerateDefaultVp2DrawRequests` (lines 76-79). -/
def isSelected (displayStatus : DisplayStatus) : Bool :=
  displayStatus == .kActive || displayStatus == .kLead || displayStatus == .kHilite

/-- Embedding of `UsdMayaGLHdRenderer::GenerateDefaultVp2DrawRequests` (lines 61-123).
`displayStatus` and `mayaWireframeColor` are what `MGeometryUtilities` reports for `objPath`,
`displayStyle` is `frameContext.getDisplayStyle()`, `fresh` is a default-constructed
`MDrawRequest`, and `requestArray` is `none` for a null pointer; the result is the array the
pointer refers to after the call.  The local `viewHelper` of the source is never used. -/
def GenerateDefaultVp2DrawRequests (api : MayaApi) (displayStatus : DisplayStatus)
    (mayaWireframeColor : GfVec4f) (displayStyle : Nat) (fresh : MDrawRequest)
    (bounds : MBoundingBox) (requestArray : Option RequestDataArray) :
    Option RequestDataArray :=
  match requestArray with
  | none => none
  | some _ =>
    let wireframeColor : GfVec4f :=
      ⟨mayaWireframeColor.r, mayaWireframeColor.g, mayaWireframeColor.b, mayaWireframeColor.a⟩
    let cleared : RequestDataArray := []
    let afterShaded : RequestDataArray :=
      if !(hasFlag displayStyle api.kWireFrame) && !(hasFlag displayStyle api.kBoundingBox) then
        let shadedRequest : RequestData :=
          if api.MAYA_API_VERSION ≥ 201600 ∧ hasFlag displayStyle api.kFlatShaded then
            { fWireframeColor := wireframeColor
              bounds := bounds
              drawRequest := { fresh with token := .DRAW_SHADED_FLAT
                                          displayStyle := .kFlatShaded } }
          else
            { fWireframeColor := wireframeColor
              bounds := bounds
              drawRequest := { fresh with token := .DRAW_SHADED_SMOOTH
                                          displayStyle := .kGouraudShaded } }
        cleared ++ [shadedRequest]
      else cleared
    if isSelected displayStatus || hasFlag displayStyle api.kWireFrame then
      let wireRequest : RequestData :=
        { fWireframeColor := wireframeColor
          bounds := bounds
          drawRequest := { fresh with token := .DRAW_WIREFRAME
                                      displayStyle := .kWireFrame } }
      some (afterShaded ++ [wireRequest])
    else some afterShaded

/-- The bounding-box case of the `switch` in `RenderVp2` (lines 222-247). -/
def vp2BoundingBox (worldView projection : MMatrix) (request : RequestData) : List Call :=
  let bbox := request.bounds
  [ .gl (.glPushAttrib [.GL_ENABLE_BIT, .GL_CURRENT_BIT]),
    .gl (.glDisable .GL_LIGHTING),
    .gl (.glMatrixMode .GL_PROJECTION),
    .gl .glPushMatrix,
    .gl (.glLoadMatrixd projection),
    .gl (.glMatrixMode .GL_MODELVIEW),
    .gl .glPushMatrix,
    .gl (.glLoadMatrixd worldView),
    .gl (.glColor3fv request.fWireframeColor),
    .gl (.glTranslated bbox),
    .gl (.glScaled bbox),
    .gl .glutWireCube,
    .gl (.glMatrixMode .GL_PROJECTION),
    .gl .glPopMatrix,
    .gl (.glMatrixMode .GL_MODELVIEW),
    .gl .glPopMatrix,
    .gl .glPopAttrib ]

/-- The render parameters the wireframe/points case of `RenderVp2` builds (lines 196-201). -/
def vp2WireParams (request : RequestData) (params : RenderParams) : RenderParams :=
  { params with
    drawMode := if request.drawRequest.token = .DRAW_WIREFRAME then .DRAW_WIREFRAME
                else .DRAW_POINTS
    enableLighting := false
    cullStyle := .CULL_STYLE_NOTHING
    overrideColor := request.fWireframeColor }

/-- The render parameters the shaded case of `RenderVp2` builds (lines 212-215). -/
def vp2ShadedParams (request : RequestData) (params : RenderParams) : RenderParams :=
  { params with
    drawMode := if request.drawRequest.token = .DRAW_SHADED_FLAT then .DRAW_GEOM_FLAT
                else .DRAW_GEOM_SMOOTH
    enableLighting := true
    cullStyle := .CULL_STYLE_BACK_UNLESS_DOUBLE_SIDED }

/-- The copy of a request the loop of `RenderVp2` works on (lines 187-190). -/
def vp2Override (viewDisplayStyle : M3dDisplayStyle) (it : RequestData) : RequestData :=
  if viewDisplayStyle = .kWireFrame ∧ it.drawRequest.displayStyle = .kGouraudShaded then
    { it with drawRequest := { it.drawRequest with displayStyle := viewDisplayStyle } }
  else it

/-- The loop of `RenderVp2` over the requests (lines 186-249).  `params` is the by-value
argument of the method, which the loop body assigns to, so what one request stores in it is
still there for the next. -/
def vp2Loop (renderedPrim : UsdPrim) (worldView projection : MMatrix)
    (viewDisplayStyle : M3dDisplayStyle) :
    RequestDataArray → RenderParams → List Call
  | [], _ => []
  | it :: rest, params =>
    let request := vp2Override viewDisplayStyle it
    match request.drawRequest.token with
    | .DRAW_WIREFRAME | .DRAW_POINTS =>
      let params1 := vp2WireParams request params
      .renderer (.Render renderedPrim params1)
        :: vp2Loop renderedPrim worldView projection viewDisplayStyle rest params1
    | .DRAW_SHADED_FLAT | .DRAW_SHADED_SMOOTH =>
      let params1 := vp2ShadedParams request params
      .renderer (.Render renderedPrim params1)
        :: vp2Loop renderedPrim worldView projection viewDisplayStyle rest params1
    | .DRAW_BOUNDING_BOX =>
      vp2BoundingBox worldView projection request
        ++ vp2Loop renderedPrim worldView projection viewDisplayStyle rest params
    | .other _ =>
      vp2Loop renderedPrim worldView projection viewDisplayStyle rest params

/-- The Xray test of `RenderVp2` (lines 142-149): the style has the Xray flag and the
rasterizer state exists and culls front faces. -/
def vp2XraySkip (api : MayaApi) (displayStyle : Nat) (stateMgr : MStateManager) : Bool :=
  hasFlag displayStyle api.kXray &&
    (match stateMgr.rasterizerState with
     | some rasterState => rasterState.cullMode == .kCullFront
     | none => false)

/-- The view display style `RenderVp2` derives from the style word (lines 172-173). -/
def vp2ViewDisplayStyle (api : MayaApi) (displayStyle : Nat) : M3dDisplayStyle :=
  if hasFlag displayStyle api.kWireFrame then .kWireFrame else .kGouraudShaded

/-- What `RenderVp2` does between its first `glPushAttrib` and the first use of `_renderer`
(lines 154-179). -/
def vp2Prologue (viewDisplayStyle : M3dDisplayStyle) : List Call :=
  .gl (.glPushAttrib [.GL_CURRENT_BIT, .GL_LIGHTING_BIT])
    :: (if viewDisplayStyle = .kGouraudShaded then
          [.setupLightingGL, .gl (.glEnable .GL_LIGHTING)]
        else [])

/-- What `RenderVp2` does after the loop (lines 251-256): the style word itself, an `int`,
is compared with the enumerator `M3dView::kGouraudShaded`. -/
def vp2Epilogue (api : MayaApi) (displayStyle : Nat) : List Call :=
  (if displayStyle = api.m3dGouraudShaded then [.unsetLightingGL] else [])
    ++ [.gl .glPopAttrib]

/-- Embedding of `UsdMayaGLHdRenderer::RenderVp2` (lines 125-257).  `theRenderer` is what
`MRenderer::theRenderer()` answers, `none` for a null pointer.  The method never tests
`_renderer` or `_renderedPrim`; its first use of the renderer is `_renderer->SetCameraState`
(line 181), where a run with a null `_renderer` ends. -/
def RenderVp2 (api : MayaApi) (self : UsdMayaGLHdRenderer) (theRenderer : Option MRenderer)
    (requests : RequestDataArray) (context : MDrawContext) (params : RenderParams) : Run :=
  match theRenderer with
  | none => ⟨[], .returned⟩
  | some theRenderer =>
    match context.stateManager with
    | none => ⟨[], .returned⟩
    | some stateMgr =>
      let displayStyle := context.displayStyle
      if displayStyle = 0 then ⟨[], .returned⟩
      else if vp2XraySkip api displayStyle stateMgr then ⟨[], .returned⟩
      else if !theRenderer.drawAPIIsOpenGL then ⟨[], .returned⟩
      else
        let worldView := context.worldViewMtx
        let projection := context.projectionMtx
        let viewDisplayStyle := vp2ViewDisplayStyle api displayStyle
        match self._renderer with
        | none => ⟨vp2Prologue viewDisplayStyle, .nullRenderer⟩
        | some _ =>
          ⟨vp2Prologue viewDisplayStyle
             ++ [ .renderer (.SetCameraState worldView projection context.viewport),
                  .renderer .SetLightingStateFromOpenGL ]
             ++ vp2Loop self._renderedPrim worldView projection viewDisplayStyle requests params
             ++ vp2Epilogue api displayStyle,
           .returned⟩

/-- The `switch` of the legacy `Render` (lines 293-353).  `currentColor` is the colour
`glGetFloatv(GL_CURRENT_COLOR, ...)` reads. -/
def legacySwitch (renderedPrim : UsdPrim) (request : MDrawRequest) (currentColor : GfVec4f)
    (params : RenderParams) : List Call :=
  let drawMode := request.token
  match drawMode with
  | .DRAW_WIREFRAME | .DRAW_POINTS =>
    [ .gl (.glGetFloatv .GL_CURRENT_COLOR),
      .renderer (.Render renderedPrim
        { params with
          drawMode := if drawMode = .DRAW_WIREFRAME then .DRAW_WIREFRAME else .DRAW_POINTS
          enableLighting := false
          overrideColor := currentColor }) ]
  | .DRAW_SHADED_FLAT | .DRAW_SHADED_SMOOTH =>
    [ .renderer (.Render renderedPrim
        { params with
          drawMode := if drawMode = .DRAW_SHADED_FLAT then .DRAW_SHADED_FLAT
                      else .DRAW_SHADED_SMOOTH }) ]
  | .DRAW_BOUNDING_BOX =>
    match request.geometry with
    | none => []
    | some shape =>
      if !shape.isBounded then []
      else
        let bbox := shape.boundingBox
        [ .gl (.glPushAttrib [.GL_ENABLE_BIT]),
          .gl (.glDisable .GL_LIGHTING),
          .gl .glPushMatrix,
          .gl (.glTranslated bbox),
          .gl (.glScaled bbox),
          .gl .glutWireCube,
          .gl .glPopMatrix,
          .gl .glPopAttrib ]
  | .other _ => []

/-- Embedding of the legacy `UsdMayaGLHdRenderer::Render` (lines 259-358).  Its first use of
the renderer is `_renderer->SetCameraState` (line 285), where a run with a null `_renderer`
ends. -/
def Render (self : UsdMayaGLHdRenderer) (request : MDrawRequest) (view : M3dView)
    (currentColor : GfVec4f) (params : RenderParams) : Run :=
  if !self._renderedPrim.isValid then ⟨[], .returned⟩
  else
    match self._renderer with
    | none => ⟨[.beginGL], .nullRenderer⟩
    | some _ =>
      ⟨[ .beginGL,
         .renderer (.SetCameraState view.modelViewMatrix view.projectionMatrix view.viewport),
         .renderer .SetLightingStateFromOpenGL,
         .gl (.glPushAttrib [.GL_ENABLE_BIT, .GL_CURRENT_BIT]),
         .gl (.glEnable .GL_FRAMEBUFFER_SRGB_EXT),
         .gl (.glEnable .GL_LIGHTING) ]
         ++ legacySwitch self._renderedPrim request currentColor params
         ++ [ .gl (.glDisable .GL_FRAMEBUFFER_SRGB_EXT),
              .gl .glPopAttrib,
              .endGL ],
       .returned⟩

/-- Embedding of `UsdMayaGLHdRenderer::TestIntersection` (lines 360-401).  `intersect` is the
answer of the bound renderer's own `TestIntersection` (with the identity as world transform):
its return value and what it stores through `hitPoint`. -/
def TestIntersection (self : UsdMayaGLHdRenderer) (view : M3dView)
    (intersect : MMatrix → MMatrix → UsdPrim → RenderParams → Bool × Option GfVec3d)
    (params : RenderParams) : PickResult :=
  match self._renderer with
  | none => ⟨false, none, []⟩
  | some _ =>
    if !self._renderedPrim.isValid then ⟨false, none, []⟩
    else
      let viewMatrix := view.selectModelView
      let projectionMatrix := view.selectProjection
      let params1 := { params with drawMode := DrawMode.DRAW_GEOM_ONLY }
      let answer := intersect viewMatrix projectionMatrix self._renderedPrim params1
      ⟨answer.1, answer.2,
       [ .beginSelect,
         .gl (.glGetDoublev .GL_MODELVIEW_MATRIX),
         .gl (.glGetDoublev .GL_PROJECTION_MATRIX),
         .endSelect,
         .renderer (.TestIntersection viewMatrix projectionMatrix self._renderedPrim params1) ]⟩

/-- Embedding of `UsdMayaGLHdRenderer::SubdLevelToComplexity` (lines 403-427), the expression
`1.0+(float(subdLevel)*0.1f)` returned as `float`: the level is converted to `float`, the
product of two `float`s is a `float`, the sum with the `double` literal `1.0` is a `double`,
and the return converts it to `float`.  The value is the exact rational the returned `float`
denotes. -/
def SubdLevelToComplexity (subdLevel : ℤ) : ℚ :=
  toFloat (toDouble (1 + toFloat (toFloat (subdLevel : ℚ) * toFloat (1 / 10))))

/-- The guard sequence of `RenderVp2` (lines 133-151) read as one condition: the call
returns before its first `glPushAttrib`. -/
def vp2EarlyExit (api : MayaApi) (theRenderer : Option MRenderer) (context : MDrawContext) :
    Bool :=
  match theRenderer with
  | none => true
  | some theRenderer =>
    match context.stateManager with
    | none => true
    | some stateMgr =>
      context.displayStyle == 0 || vp2XraySkip api context.displayStyle stateMgr
        || !theRenderer.drawAPIIsOpenGL

/-- The draw mode and cull style of every `Render` call a trace makes on the bound renderer,
in order. -/
def handed : List Call → List (DrawMode × CullStyle)
  | [] => []
  | .renderer (.Render _ params) :: rest => (params.drawMode, params.cullStyle) :: handed rest
  | _ :: rest => handed rest

/-- What the loop hands to the renderer for one request, by token. -/
def vp2Mapping : DrawToken → Option (DrawMode × CullStyle)
  | .DRAW_WIREFRAME => some (.DRAW_WIREFRAME, .CULL_STYLE_NOTHING)
  | .DRAW_POINTS => some (.DRAW_POINTS, .CULL_STYLE_NOTHING)
  | .DRAW_SHADED_FLAT => some (.DRAW_GEOM_FLAT, .CULL_STYLE_BACK_UNLESS_DOUBLE_SIDED)
  | .DRAW_SHADED_SMOOTH => some (.DRAW_GEOM_SMOOTH, .CULL_STYLE_BACK_UNLESS_DOUBLE_SIDED)
  | _ => none

end UsdMayaGLHdRenderer

/-! ## Sample inputs -/

/-- A colour. -/
def sampleColor : GfVec4f := ⟨1, 2, 3, 4⟩

/-- A box. -/
def sampleBounds : MBoundingBox := ⟨⟨0, 0, 0⟩, ⟨5, 6, 7⟩⟩

/-- A valid prim. -/
def samplePrim : UsdPrim := ⟨7, ⟨"/World"⟩, true⟩

/-- The default-constructed prim handle: it is not valid. -/
def invalidPrim : UsdPrim := ⟨0, ⟨""⟩, false⟩

/-- The object as constructed: no renderer yet, the default prim handle, no exclusions. -/
def freshObject : UsdMayaGLHdRenderer := ⟨invalidPrim, [], none⟩

/-- The object after `CheckRendererSetup(samplePrim, {})`. -/
def boundObject : UsdMayaGLHdRenderer := ⟨samplePrim, [], some ⟨⟨"/World"⟩, []⟩⟩

/-- Incoming render parameters. -/
def sampleParams : RenderParams :=
  ⟨.DRAW_SHADED_SMOOTH, true, .CULL_STYLE_NOTHING, ⟨0, 0, 0, 0⟩, 11⟩

/-- A draw context with the given style word, a state manager whose rasterizer culls back
faces, and identity-like payload matrices. -/
def sampleContext (displayStyle : Nat) : MDrawContext :=
  ⟨some ⟨some ⟨.kCullBack⟩⟩, displayStyle, ⟨[1]⟩, ⟨[2]⟩, ⟨[3]⟩, ⟨0, 0, 640, 480⟩⟩

/-- A draw context in Xray mode whose rasterizer culls front faces. -/
def xrayContext : MDrawContext :=
  ⟨some ⟨some ⟨.kCullFront⟩⟩, 65, ⟨[1]⟩, ⟨[2]⟩, ⟨[3]⟩, ⟨0, 0, 640, 480⟩⟩

/-- A legacy view. -/
def sampleView : M3dView := ⟨⟨[1]⟩, ⟨[2]⟩, ⟨0, 0, 640, 480⟩, ⟨[4]⟩, ⟨[5]⟩⟩

/-- A request with the given token and display style. -/
def sampleRequest (token : DrawToken) (style : M3dDisplayStyle) : RequestData :=
  ⟨sampleColor, sampleBounds, ⟨token, style, none⟩⟩

/-- The object after `CheckRendererSetup(UsdPrim(), {/x})` on the object as constructed: a
renderer is bound, the bound prim is not valid. -/
def invalidBoundObject : UsdMayaGLHdRenderer :=
  (freshObject.CheckRendererSetup invalidPrim [⟨"/x"⟩]).self

/-- Incoming render parameters that ask for back-face culling. -/
def backCullParams : RenderParams :=
  ⟨.DRAW_SHADED_SMOOTH, true, .CULL_STYLE_BACK_UNLESS_DOUBLE_SIDED, ⟨0, 0, 0, 0⟩, 11⟩

/-- An OpenGL host renderer. -/
def openGLRenderer : Option MRenderer := some ⟨true⟩

/-- A renderer answer for picking: a hit at a point. -/
def sampleIntersect : MMatrix → MMatrix → UsdPrim → RenderParams → Bool × Option GfVec3d :=
  fun _ _ _ _ => (true, some ⟨1, 1, 1⟩)

namespace UsdMayaGLHdRenderer

/-! ## Request generation -/

/-- C1: for every style word, display status, bounds, wireframe colour and previous content
of a non-null request array, `GenerateDefaultVp2DrawRequests` leaves the array equal to a
shaded part followed by a wireframe part, where the shaded part is one request with a shaded
token exactly when the style has neither the wireframe nor the bounding-box flag (and is
empty otherwise), and the wireframe part is one wireframe request exactly when the status is
active, lead or hilite or the style has the wireframe flag (and is empty otherwise); every
request carries the bounds and the colour, and the array ends with at most two requests. -/
theorem generateDefaultVp2DrawRequests_spec (api : MayaApi) (displayStatus : DisplayStatus)
    (color : GfVec4f) (displayStyle : Nat) (fresh : MDrawRequest) (bounds : MBoundingBox)
    (old : RequestDataArray) :
    ∃ shaded wire : RequestDataArray,
      GenerateDefaultVp2DrawRequests api displayStatus color displayStyle fresh bounds
          (some old) = some (shaded ++ wire) ∧
      (shaded.length = 1 ↔
        (hasFlag displayStyle api.kWireFrame = false ∧
          hasFlag displayStyle api.kBoundingBox = false)) ∧
      (shaded.length ≠ 1 → shaded = []) ∧
      (wire.length = 1 ↔
        ((displayStatus = .kActive ∨ displayStatus = .kLead ∨ displayStatus = .kHilite) ∨
          hasFlag displayStyle api.kWireFrame = true)) ∧
      (wire.length ≠ 1 → wire = []) ∧
      (∀ r ∈ shaded, r.drawRequest.token = .DRAW_SHADED_FLAT ∨
        r.drawRequest.token = .DRAW_SHADED_SMOOTH) ∧
      (∀ r ∈ wire, r.drawRequest.token = .DRAW_WIREFRAME ∧
        r.drawRequest.displayStyle = .kWireFrame) ∧
      (∀ r ∈ shaded ++ wire, r.bounds = bounds ∧ r.fWireframeColor = color) ∧
      (shaded ++ wire).length ≤ 2 := by
  by_cases hs : (hasFlag displayStyle api.kWireFrame = false ∧
      hasFlag displayStyle api.kBoundingBox = false)
  · obtain ⟨hw, hb⟩ := hs
    by_cases hf : api.MAYA_API_VERSION ≥ 201600 ∧ hasFlag displayStyle api.kFlatShaded = true
    · by_cases hsel : isSelected displayStatus = true
      · refine ⟨[⟨color, bounds, { fresh with token := .DRAW_SHADED_FLAT
                                              displayStyle := .kFlatShaded }⟩],
          [⟨color, bounds, { fresh with token := .DRAW_WIREFRAME
                                        displayStyle := .kWireFrame }⟩], ?_⟩
        cases displayStatus <;>
          simp_all [GenerateDefaultVp2DrawRequests, isSelected]
      · refine ⟨[⟨color, bounds, { fresh with token := .DRAW_SHADED_FLAT
                                              displayStyle := .kFlatShaded }⟩], [], ?_⟩
        cases displayStatus <;>
          simp_all [GenerateDefaultVp2DrawRequests, isSelected]
    · by_cases hsel : isSelected displayStatus = true
      · refine ⟨[⟨color, bounds, { fresh with token := .DRAW_SHADED_SMOOTH
                                              displayStyle := .kGouraudShaded }⟩],
          [⟨color, bounds, { fresh with token := .DRAW_WIREFRAME
                                        displayStyle := .kWireFrame }⟩], ?_⟩
        cases displayStatus <;>
          simp_all [GenerateDefaultVp2DrawRequests, isSelected]
      · refine ⟨[⟨color, bounds, { fresh with token := .DRAW_SHADED_SMOOTH
                                              displayStyle := .kGouraudShaded }⟩], [], ?_⟩
        cases displayStatus <;>
          simp_all [GenerateDefaultVp2DrawRequests, isSelected]
  · by_cases hwire : (isSelected displayStatus || hasFlag displayStyle api.kWireFrame) = true
    · refine ⟨[], [⟨color, bounds, { fresh with token := .DRAW_WIREFRAME
                                                displayStyle := .kWireFrame }⟩], ?_⟩
      cases displayStatus <;>
        simp_all [GenerateDefaultVp2DrawRequests, isSelected]
    · refine ⟨[], [], ?_⟩
      cases displayStatus <;>
        simp_all [GenerateDefaultVp2DrawRequests, isSelected]

/-! ## Renderer binding -/

/-- C7: for every object state and every requested prim and exclusion list, after
`CheckRendererSetup` the bound prim and the bound exclusion list are the requested ones; the
call constructs a renderer instance exactly when the request differs from what was bound
before, and then constructs exactly one, scoped to the requested path and exclusions, which
becomes the bound renderer; a second call with the same request constructs nothing and
leaves the object as it is. -/
theorem checkRendererSetup_spec (self : UsdMayaGLHdRenderer) (usdPrim : UsdPrim)
    (excludePaths : SdfPathVector) :
    (self.CheckRendererSetup usdPrim excludePaths).self._renderedPrim = usdPrim ∧
    (self.CheckRendererSetup usdPrim excludePaths).self._excludePrimPaths = excludePaths ∧
    ((self.CheckRendererSetup usdPrim excludePaths).constructed ≠ [] ↔
      (usdPrim ≠ self._renderedPrim ∨ excludePaths ≠ self._excludePrimPaths)) ∧
    (∀ r ∈ (self.CheckRendererSetup usdPrim excludePaths).constructed,
      (self.CheckRendererSetup usdPrim excludePaths).constructed = [r] ∧
      r = ⟨usdPrim.path, excludePaths⟩ ∧
      (self.CheckRendererSetup usdPrim excludePaths).self._renderer = some r) ∧
    ((self.CheckRendererSetup usdPrim excludePaths).constructed = [] →
      (self.CheckRendererSetup usdPrim excludePaths).self = self) ∧
    (self.CheckRendererSetup usdPrim excludePaths).self.CheckRendererSetup usdPrim
        excludePaths =
      ⟨(self.CheckRendererSetup usdPrim excludePaths).self, []⟩ := by
  by_cases h : usdPrim ≠ self._renderedPrim ∨ excludePaths ≠ self._excludePrimPaths
  · simp [CheckRendererSetup, h]
  · have h1 : usdPrim = self._renderedPrim := by
      by_contra hc
      exact h (Or.inl hc)
    have h2 : excludePaths = self._excludePrimPaths := by
      by_contra hc
      exact h (Or.inr hc)
    subst h1 h2
    simp [CheckRendererSetup]

/-! ## Early exits of the modern dispatcher -/

/-- C2: for every batch and draw context in which one of the early-exit conditions of
`RenderVp2` holds (no active renderer, no state manager, style word zero, Xray flag with a
rasterizer state that culls front faces, or a draw API other than OpenGL), `RenderVp2`
returns and its trace is empty: no graphics call and no call on the bound renderer was
made. -/
theorem renderVp2_early_exit (api : MayaApi) (self : UsdMayaGLHdRenderer)
    (theRenderer : Option MRenderer) (requests : RequestDataArray) (context : MDrawContext)
    (params : RenderParams)
    (h : theRenderer = none ∨ context.stateManager = none ∨ context.displayStyle = 0 ∨
      (hasFlag context.displayStyle api.kXray = true ∧
        ∃ stateMgr rasterState, context.stateManager = some stateMgr ∧
          stateMgr.rasterizerState = some rasterState ∧ rasterState.cullMode = .kCullFront) ∨
      (∃ r, theRenderer = some r ∧ r.drawAPIIsOpenGL = false)) :
    (self.RenderVp2 api theRenderer requests context params).outcome = .returned ∧
    (self.RenderVp2 api theRenderer requests context params).calls = [] ∧
    ((self.RenderVp2 api theRenderer requests context params).calls.countP Call.isGraphics
      = 0) ∧
    ((self.RenderVp2 api theRenderer requests context params).calls.countP Call.isRenderer
      = 0) := by
  have key : self.RenderVp2 api theRenderer requests context params = ⟨[], .returned⟩ := by
    unfold RenderVp2
    cases hr : theRenderer with
    | none => rfl
    | some r =>
      cases hm : context.stateManager with
      | none => rfl
      | some stateMgr =>
        rcases h with h | h | h | h | h
        · simp [hr] at h
        · simp [hm] at h
        · simp [h]
        · obtain ⟨hx, sm, rs, h1, h2, h3⟩ := h
          rw [hm] at h1
          cases h1
          have : vp2XraySkip api context.displayStyle stateMgr = true := by
            simp [vp2XraySkip, hx, h2, h3]
          simp only [this]
          split <;> rfl
        · obtain ⟨r1, h1, h2⟩ := h
          rw [hr] at h1
          cases h1
          simp only [h2]
          split
          · rfl
          · split <;> rfl
  rw [key]
  simp

/-- C2, at a concrete input: Xray mode (style word 0x41) with a front-culling rasterizer, a
bound renderer and a one-request batch. -/
theorem renderVp2_early_exit_witness :
    (boundObject.RenderVp2 maya2016 openGLRenderer
        [sampleRequest .DRAW_SHADED_SMOOTH .kGouraudShaded] xrayContext sampleParams).outcome
      = .returned ∧
    (boundObject.RenderVp2 maya2016 openGLRenderer
        [sampleRequest .DRAW_SHADED_SMOOTH .kGouraudShaded] xrayContext sampleParams).calls
      = [] ∧
    ((boundObject.RenderVp2 maya2016 openGLRenderer
        [sampleRequest .DRAW_SHADED_SMOOTH .kGouraudShaded] xrayContext
        sampleParams).calls.countP Call.isGraphics = 0) ∧
    ((boundObject.RenderVp2 maya2016 openGLRenderer
        [sampleRequest .DRAW_SHADED_SMOOTH .kGouraudShaded] xrayContext
        sampleParams).calls.countP Call.isRenderer = 0) :=
  renderVp2_early_exit maya2016 boundObject openGLRenderer
    [sampleRequest .DRAW_SHADED_SMOOTH .kGouraudShaded] xrayContext sampleParams
    (Or.inr (Or.inr (Or.inr (Or.inl
      ⟨by decide, ⟨some ⟨.kCullFront⟩⟩, ⟨.kCullFront⟩, rfl, rfl, rfl⟩))))

/-! ## Picking -/

/-- C5: for every view, render parameters and renderer answer, `TestIntersection` on an
object whose renderer pointer is null, or whose bound prim is not valid, returns false,
stores nothing through the hit-point pointer and makes no call at all: no selection pass is
opened or closed and the renderer is not asked. -/
theorem testIntersection_unbound (self : UsdMayaGLHdRenderer) (view : M3dView)
    (intersect : MMatrix → MMatrix → UsdPrim → RenderParams → Bool × Option GfVec3d)
    (params : RenderParams)
    (h : self._renderer = none ∨ self._renderedPrim.isValid = false) :
    (self.TestIntersection view intersect params).hit = false ∧
    (self.TestIntersection view intersect params).hitPoint = none ∧
    (self.TestIntersection view intersect params).calls = [] ∧
    Call.beginSelect ∉ (self.TestIntersection view intersect params).calls ∧
    Call.endSelect ∉ (self.TestIntersection view intersect params).calls ∧
    (self.TestIntersection view intersect params).calls.countP Call.isRenderer = 0 := by
  have key : self.TestIntersection view intersect params = ⟨false, none, []⟩ := by
    unfold TestIntersection
    cases hr : self._renderer with
    | none => rfl
    | some r =>
      rcases h with h | h
      · simp [hr] at h
      · simp [h]
  rw [key]
  simp

/-- C5, at a concrete input: the object as constructed, with a renderer answer that would
report a hit. -/
theorem testIntersection_unbound_witness :
    (freshObject.TestIntersection sampleView sampleIntersect sampleParams).hit = false ∧
    (freshObject.TestIntersection sampleView sampleIntersect sampleParams).hitPoint = none ∧
    (freshObject.TestIntersection sampleView sampleIntersect sampleParams).calls = [] ∧
    Call.beginSelect ∉
      (freshObject.TestIntersection sampleView sampleIntersect sampleParams).calls ∧
    Call.endSelect ∉
      (freshObject.TestIntersection sampleView sampleIntersect sampleParams).calls ∧
    (freshObject.TestIntersection sampleView sampleIntersect
      sampleParams).calls.countP Call.isRenderer = 0 :=
  testIntersection_unbound freshObject sampleView sampleIntersect sampleParams (Or.inl rfl)

/-! ## The modern dispatcher past its guards -/

/-- Past the guards and with a renderer bound, `RenderVp2` runs prologue, camera and lighting
hand-over, loop and epilogue, and returns. -/
theorem renderVp2_of_bound (api : MayaApi) (self : UsdMayaGLHdRenderer)
    (theRenderer : Option MRenderer) (requests : RequestDataArray) (context : MDrawContext)
    (params : RenderParams) (r : UsdImagingGL)
    (hp : vp2EarlyExit api theRenderer context = false) (hb : self._renderer = some r) :
    self.RenderVp2 api theRenderer requests context params =
      ⟨vp2Prologue (vp2ViewDisplayStyle api context.displayStyle)
         ++ [ .renderer (.SetCameraState context.worldViewMtx context.projectionMtx
                context.viewport),
              .renderer .SetLightingStateFromOpenGL ]
         ++ vp2Loop self._renderedPrim context.worldViewMtx context.projectionMtx
              (vp2ViewDisplayStyle api context.displayStyle) requests params
         ++ vp2Epilogue api context.displayStyle,
       .returned⟩ := by
  unfold RenderVp2
  unfold vp2EarlyExit at hp
  cases hr : theRenderer with
  | none => simp [hr] at hp
  | some tr =>
    cases hm : context.stateManager with
    | none => simp [hr, hm] at hp
    | some stateMgr =>
      simp [hr, hm] at hp
      obtain ⟨⟨h0, hx⟩, hgl⟩ := hp
      simp [h0, hx, hgl, hb]

/-- Past the guards and with the renderer pointer null, `RenderVp2` runs its prologue and
then dereferences the null pointer. -/
theorem renderVp2_of_null (api : MayaApi) (self : UsdMayaGLHdRenderer)
    (theRenderer : Option MRenderer) (requests : RequestDataArray) (context : MDrawContext)
    (params : RenderParams)
    (hp : vp2EarlyExit api theRenderer context = false) (hb : self._renderer = none) :
    self.RenderVp2 api theRenderer requests context params =
      ⟨vp2Prologue (vp2ViewDisplayStyle api context.displayStyle), .nullRenderer⟩ := by
  unfold RenderVp2
  unfold vp2EarlyExit at hp
  cases hr : theRenderer with
  | none => simp [hr] at hp
  | some tr =>
    cases hm : context.stateManager with
    | none => simp [hr, hm] at hp
    | some stateMgr =>
      simp [hr, hm] at hp
      obtain ⟨⟨h0, hx⟩, hgl⟩ := hp
      simp [h0, hx, hgl, hb]

/-- The override of the loop changes the display style of its copy only. -/
theorem vp2Override_token (v : M3dDisplayStyle) (it : RequestData) :
    (vp2Override v it).drawRequest.token = it.drawRequest.token := by
  unfold vp2Override
  split <;> rfl

theorem handed_append (s t : List Call) : handed (s ++ t) = handed s ++ handed t := by
  induction s with
  | nil => rfl
  | cons c s ih =>
    cases c with
    | renderer rc => cases rc <;> simp [handed, ih]
    | _ => simp [handed, ih]

theorem handed_vp2BoundingBox (worldView projection : MMatrix) (request : RequestData) :
    handed (vp2BoundingBox worldView projection request) = [] := by
  simp [vp2BoundingBox, handed]

theorem handed_vp2Prologue (v : M3dDisplayStyle) : handed (vp2Prologue v) = [] := by
  unfold vp2Prologue
  split <;> simp [handed]

theorem handed_vp2Epilogue (api : MayaApi) (d : Nat) : handed (vp2Epilogue api d) = [] := by
  unfold vp2Epilogue
  split <;> simp [handed]

/-- Whatever the view display style, the loop hands the renderer the draw mode and cull style
that the token of each request selects: the display-style override never reaches a
`Render` call. -/
theorem handed_vp2Loop (prim : UsdPrim) (worldView projection : MMatrix)
    (v : M3dDisplayStyle) (requests : RequestDataArray) (params : RenderParams) :
    handed (vp2Loop prim worldView projection v requests params) =
      requests.filterMap (fun it => vp2Mapping it.drawRequest.token) := by
  induction requests generalizing params with
  | nil => rfl
  | cons it rest ih =>
    have ht := vp2Override_token v it
    unfold vp2Loop
    cases hk : it.drawRequest.token <;> rw [hk] at ht <;>
      simp [ht, hk, handed, handed_append, handed_vp2BoundingBox, ih, vp2Mapping,
        vp2WireParams, vp2ShadedParams]

/-- Whatever a bound, past-the-guards `RenderVp2` hands the renderer is selected by the
tokens of the batch alone. -/
theorem handed_renderVp2 (api : MayaApi) (self : UsdMayaGLHdRenderer)
    (theRenderer : Option MRenderer) (requests : RequestDataArray) (context : MDrawContext)
    (params : RenderParams) (r : UsdImagingGL)
    (hp : vp2EarlyExit api theRenderer context = false) (hb : self._renderer = some r) :
    handed (self.RenderVp2 api theRenderer requests context params).calls =
      requests.filterMap (fun it => vp2Mapping it.drawRequest.token) := by
  rw [renderVp2_of_bound api self theRenderer requests context params r hp hb]
  simp only [handed_append, handed_vp2Prologue, handed_vp2Epilogue, handed_vp2Loop]
  simp [handed]

/-! ## Attribute-stack balance -/

theorem pushes_append (s t : List Call) : pushes (s ++ t) = pushes s + pushes t := by
  simp [pushes]

theorem pops_append (s t : List Call) : pops (s ++ t) = pops s + pops t := by
  simp [pops]

theorem pushes_cons (c : Call) (t : List Call) :
    pushes (c :: t) = (if c.isPush = true then 1 else 0) + pushes t := by
  simp [pushes, List.countP_cons, Nat.add_comm]

theorem pops_cons (c : Call) (t : List Call) :
    pops (c :: t) = (if c.isPop = true then 1 else 0) + pops t := by
  simp [pops, List.countP_cons, Nat.add_comm]

theorem vp2BoundingBox_balanced (worldView projection : MMatrix) (request : RequestData) :
    pushes (vp2BoundingBox worldView projection request) = 1 ∧
    pops (vp2BoundingBox worldView projection request) = 1 := by
  simp [vp2BoundingBox, pushes, pops, Call.isPush, Call.isPop]

theorem vp2Loop_balanced (prim : UsdPrim) (worldView projection : MMatrix)
    (v : M3dDisplayStyle) (requests : RequestDataArray) (params : RenderParams) :
    pushes (vp2Loop prim worldView projection v requests params) =
      pops (vp2Loop prim worldView projection v requests params) := by
  induction requests generalizing params with
  | nil => rfl
  | cons it rest ih =>
    have ht := vp2Override_token v it
    unfold vp2Loop
    cases hk : it.drawRequest.token <;> rw [hk] at ht <;>
      simp [ht, pushes_cons, pops_cons, pushes_append, pops_append, Call.isPush, Call.isPop,
        vp2BoundingBox_balanced, ih]

theorem legacySwitch_balanced (prim : UsdPrim) (request : MDrawRequest)
    (currentColor : GfVec4f) (params : RenderParams) :
    pushes (legacySwitch prim request currentColor params) =
      pops (legacySwitch prim request currentColor params) := by
  unfold legacySwitch
  cases request.token <;> simp [pushes, pops, Call.isPush, Call.isPop]
  cases request.geometry with
  | none => simp
  | some shape => cases hs : shape.isBounded <;> simp [hs, Call.isPush, Call.isPop]

/-- The legacy `Render` issues as many `glPushAttrib` as `glPopAttrib` calls, for every
object state, request token, view and render parameters (its one use of the renderer comes
before its first push). -/
theorem render_balanced (self : UsdMayaGLHdRenderer) (request : MDrawRequest) (view : M3dView)
    (currentColor : GfVec4f) (params : RenderParams) :
    pushes (self.Render request view currentColor params).calls =
      pops (self.Render request view currentColor params).calls := by
  unfold Render
  split
  · rfl
  · split
    · rfl
    · have h := legacySwitch_balanced self._renderedPrim request currentColor params
      simp only [pushes, pops] at h
      simp [pushes, pops, Call.isPush, Call.isPop, h]

theorem vp2Prologue_pushes (v : M3dDisplayStyle) :
    pushes (vp2Prologue v) = 1 ∧ pops (vp2Prologue v) = 0 := by
  unfold vp2Prologue
  split <;> simp [pushes, pops, Call.isPush, Call.isPop]

theorem vp2Epilogue_pops (api : MayaApi) (d : Nat) :
    pushes (vp2Epilogue api d) = 0 ∧ pops (vp2Epilogue api d) = 1 := by
  unfold vp2Epilogue
  split <;> simp [pushes, pops, Call.isPush, Call.isPop]

/-- `RenderVp2` issues as many `glPushAttrib` as `glPopAttrib` calls whenever it returns
early or a renderer is bound. -/
theorem renderVp2_balanced_of_bound (api : MayaApi) (self : UsdMayaGLHdRenderer)
    (theRenderer : Option MRenderer) (requests : RequestDataArray) (context : MDrawContext)
    (params : RenderParams) (r : UsdImagingGL) (hb : self._renderer = some r) :
    pushes (self.RenderVp2 api theRenderer requests context params).calls =
      pops (self.RenderVp2 api theRenderer requests context params).calls := by
  cases hp : vp2EarlyExit api theRenderer context with
  | false =>
    rw [renderVp2_of_bound api self theRenderer requests context params r hp hb]
    simp only [pushes_append, pops_append]
    rw [(vp2Prologue_pushes _).1, (vp2Prologue_pushes _).2, (vp2Epilogue_pops _ _).1,
      (vp2Epilogue_pops _ _).2, vp2Loop_balanced]
    simp [pushes, pops, Call.isPush, Call.isPop]
    omega
  | true =>
    have key : self.RenderVp2 api theRenderer requests context params = ⟨[], .returned⟩ := by
      unfold RenderVp2
      unfold vp2EarlyExit at hp
      cases hr : theRenderer with
      | none => rfl
      | some tr =>
        cases hm : context.stateManager with
        | none => rfl
        | some stateMgr =>
          simp only [hr, hm] at hp
          simp only
          split
          · rfl
          · split
            · rfl
            · split
              · rfl
              · rename_i h0 hx hgl
                simp [h0, hx, hgl] at hp
    rw [key]
    rfl

/-- Past the guards with the renderer pointer null, `RenderVp2` has pushed once and never
pops. -/
theorem renderVp2_unbalanced_of_null (api : MayaApi) (self : UsdMayaGLHdRenderer)
    (theRenderer : Option MRenderer) (requests : RequestDataArray) (context : MDrawContext)
    (params : RenderParams)
    (hp : vp2EarlyExit api theRenderer context = false) (hb : self._renderer = none) :
    pushes (self.RenderVp2 api theRenderer requests context params).calls = 1 ∧
    pops (self.RenderVp2 api theRenderer requests context params).calls = 0 := by
  rw [renderVp2_of_null api self theRenderer requests context params hp hb]
  exact vp2Prologue_pushes _

/-! ## Lighting setup and teardown -/

theorem vp2Loop_no_lighting (prim : UsdPrim) (worldView projection : MMatrix)
    (v : M3dDisplayStyle) (requests : RequestDataArray) (params : RenderParams) :
    Call.setupLightingGL ∉ vp2Loop prim worldView projection v requests params ∧
    Call.unsetLightingGL ∉ vp2Loop prim worldView projection v requests params := by
  induction requests generalizing params with
  | nil => simp [vp2Loop]
  | cons it rest ih =>
    have ht := vp2Override_token v it
    unfold vp2Loop
    cases hk : it.drawRequest.token <;> rw [hk] at ht <;>
      simp [ht, vp2BoundingBox, ih]

/-- In a bound run of `RenderVp2` past the guards, lighting setup happens exactly when the
style word lacks the wireframe flag, while lighting teardown happens exactly when the style
word, as an integer, equals the value of `M3dView::kGouraudShaded`. -/
theorem renderVp2_lighting (api : MayaApi) (self : UsdMayaGLHdRenderer)
    (theRenderer : Option MRenderer) (requests : RequestDataArray) (context : MDrawContext)
    (params : RenderParams) (r : UsdImagingGL)
    (hp : vp2EarlyExit api theRenderer context = false) (hb : self._renderer = some r) :
    (Call.setupLightingGL ∈ (self.RenderVp2 api theRenderer requests context params).calls ↔
      hasFlag context.displayStyle api.kWireFrame = false) ∧
    (Call.unsetLightingGL ∈ (self.RenderVp2 api theRenderer requests context params).calls ↔
      context.displayStyle = api.m3dGouraudShaded) := by
  rw [renderVp2_of_bound api self theRenderer requests context params r hp hb]
  have hl := vp2Loop_no_lighting self._renderedPrim context.worldViewMtx
    context.projectionMtx (vp2ViewDisplayStyle api context.displayStyle) requests params
  generalize vp2Loop self._renderedPrim context.worldViewMtx context.projectionMtx
    (vp2ViewDisplayStyle api context.displayStyle) requests params = body at hl
  obtain ⟨hl1, hl2⟩ := hl
  unfold vp2Epilogue
  constructor
  · cases hw : hasFlag context.displayStyle api.kWireFrame <;> split <;>
      simp [vp2Prologue, vp2ViewDisplayStyle, hw, hl1]
  · cases hw : hasFlag context.displayStyle api.kWireFrame <;> split <;> rename_i he <;>
      simp [vp2Prologue, vp2ViewDisplayStyle, hw, hl2] <;> exact he

/-! ## The legacy dispatcher -/

/-- The legacy `Render` is a no-op on an object whose bound prim is not valid. -/
theorem render_noop_of_invalid (self : UsdMayaGLHdRenderer) (request : MDrawRequest)
    (view : M3dView) (currentColor : GfVec4f) (params : RenderParams)
    (h : self._renderedPrim.isValid = false) :
    self.Render request view currentColor params = ⟨[], .returned⟩ := by
  simp [Render, h]

/-! ## The claims about the dispatchers -/

/-- C3, evaluated at the failing input: host style word 2 (only the wireframe flag), a bound
renderer, and the one-request batch holding a ShadedSmooth request (token
`DRAW_SHADED_SMOOTH`, display style Gouraud).  The call is not early-exited and the copy of
the request the loop works on does get display style wireframe, but the one `Render` call
handed to the bound renderer has draw mode `DRAW_GEOM_SMOOTH` with lighting enabled and
back-face culling, not the wireframe draw mode. -/
theorem renderVp2_wireframe_style_keeps_smooth_mode :
    vp2EarlyExit maya2016 openGLRenderer (sampleContext 2) = false ∧
    hasFlag (sampleContext 2).displayStyle maya2016.kWireFrame = true ∧
    (vp2Override (vp2ViewDisplayStyle maya2016 2)
      (sampleRequest .DRAW_SHADED_SMOOTH .kGouraudShaded)).drawRequest.displayStyle
        = .kWireFrame ∧
    (boundObject.RenderVp2 maya2016 openGLRenderer
        [sampleRequest .DRAW_SHADED_SMOOTH .kGouraudShaded] (sampleContext 2)
        sampleParams).calls =
      [ .gl (.glPushAttrib [.GL_CURRENT_BIT, .GL_LIGHTING_BIT]),
        .renderer (.SetCameraState ⟨[1]⟩ ⟨[2]⟩ ⟨0, 0, 640, 480⟩),
        .renderer .SetLightingStateFromOpenGL,
        .renderer (.Render samplePrim
          ⟨.DRAW_GEOM_SMOOTH, true, .CULL_STYLE_BACK_UNLESS_DOUBLE_SIDED, ⟨0, 0, 0, 0⟩, 11⟩),
        .unsetLightingGL,
        .gl .glPopAttrib ] := by
  decide

/-- C4, evaluated at the failing input: the object as constructed (renderer pointer null), an
OpenGL host renderer, a draw context with style word 1 and a state manager.  `RenderVp2`
passes its guards, pushes the attribute stack once, sets up lighting and then dereferences
the null renderer pointer: one `glPushAttrib`, no `glPopAttrib`. -/
theorem renderVp2_null_renderer_unbalanced :
    (freshObject.RenderVp2 maya2016 openGLRenderer
        [sampleRequest .DRAW_SHADED_SMOOTH .kGouraudShaded] (sampleContext 1)
        sampleParams).outcome = .nullRenderer ∧
    (freshObject.RenderVp2 maya2016 openGLRenderer
        [sampleRequest .DRAW_SHADED_SMOOTH .kGouraudShaded] (sampleContext 1)
        sampleParams).calls =
      [ .gl (.glPushAttrib [.GL_CURRENT_BIT, .GL_LIGHTING_BIT]),
        .setupLightingGL,
        .gl (.glEnable .GL_LIGHTING) ] ∧
    pushes (freshObject.RenderVp2 maya2016 openGLRenderer
        [sampleRequest .DRAW_SHADED_SMOOTH .kGouraudShaded] (sampleContext 1)
        sampleParams).calls = 1 ∧
    pops (freshObject.RenderVp2 maya2016 openGLRenderer
        [sampleRequest .DRAW_SHADED_SMOOTH .kGouraudShaded] (sampleContext 1)
        sampleParams).calls = 0 := by
  decide

/-- C8, evaluated at the failing input: an object whose bound prim is not valid (a renderer
was constructed for the default prim handle), an OpenGL host renderer, style word 1.  The
legacy `Render` is a no-op there, but `RenderVp2` has no such check: it issues four
graphics-state calls and three calls on the bound renderer, one of them a `Render` of the
invalid prim.  On the object as constructed (no renderer at all) it still issues three
graphics-state calls before it reaches the null renderer pointer. -/
theorem renderVp2_draws_without_valid_binding :
    invalidBoundObject._renderedPrim.isValid = false ∧
    (invalidBoundObject.Render (sampleRequest .DRAW_SHADED_SMOOTH .kGouraudShaded).drawRequest
        sampleView sampleColor sampleParams) = ⟨[], .returned⟩ ∧
    (invalidBoundObject.RenderVp2 maya2016 openGLRenderer
        [sampleRequest .DRAW_SHADED_SMOOTH .kGouraudShaded] (sampleContext 1)
        sampleParams).calls =
      [ .gl (.glPushAttrib [.GL_CURRENT_BIT, .GL_LIGHTING_BIT]),
        .setupLightingGL,
        .gl (.glEnable .GL_LIGHTING),
        .renderer (.SetCameraState ⟨[1]⟩ ⟨[2]⟩ ⟨0, 0, 640, 480⟩),
        .renderer .SetLightingStateFromOpenGL,
        .renderer (.Render invalidPrim
          ⟨.DRAW_GEOM_SMOOTH, true, .CULL_STYLE_BACK_UNLESS_DOUBLE_SIDED, ⟨0, 0, 0, 0⟩, 11⟩),
        .gl .glPopAttrib ] ∧
    (invalidBoundObject.RenderVp2 maya2016 openGLRenderer
        [sampleRequest .DRAW_SHADED_SMOOTH .kGouraudShaded] (sampleContext 1)
        sampleParams).calls.countP Call.isGraphics = 4 ∧
    (invalidBoundObject.RenderVp2 maya2016 openGLRenderer
        [sampleRequest .DRAW_SHADED_SMOOTH .kGouraudShaded] (sampleContext 1)
        sampleParams).calls.countP Call.isRenderer = 3 ∧
    freshObject._renderer = none ∧
    (freshObject.RenderVp2 maya2016 openGLRenderer
        [sampleRequest .DRAW_SHADED_SMOOTH .kGouraudShaded] (sampleContext 1)
        sampleParams).calls.countP Call.isGraphics = 3 := by
  decide

/-- C9, evaluated at two failing inputs, both with a bound renderer and past the guards.
With style word 1 (no wireframe flag, so the batch is shaded) lighting setup is performed and
lighting teardown is not.  With style word 2 (only the wireframe flag) lighting setup is not
performed and lighting teardown is. -/
theorem renderVp2_lighting_not_paired :
    vp2EarlyExit maya2016 openGLRenderer (sampleContext 1) = false ∧
    hasFlag (sampleContext 1).displayStyle maya2016.kWireFrame = false ∧
    Call.setupLightingGL ∈ (boundObject.RenderVp2 maya2016 openGLRenderer
        [sampleRequest .DRAW_SHADED_SMOOTH .kGouraudShaded] (sampleContext 1)
        sampleParams).calls ∧
    Call.unsetLightingGL ∉ (boundObject.RenderVp2 maya2016 openGLRenderer
        [sampleRequest .DRAW_SHADED_SMOOTH .kGouraudShaded] (sampleContext 1)
        sampleParams).calls ∧
    vp2EarlyExit maya2016 openGLRenderer (sampleContext 2) = false ∧
    hasFlag (sampleContext 2).displayStyle maya2016.kWireFrame = true ∧
    Call.setupLightingGL ∉ (boundObject.RenderVp2 maya2016 openGLRenderer
        [sampleRequest .DRAW_WIREFRAME .kWireFrame] (sampleContext 2) sampleParams).calls ∧
    Call.unsetLightingGL ∈ (boundObject.RenderVp2 maya2016 openGLRenderer
        [sampleRequest .DRAW_WIREFRAME .kWireFrame] (sampleContext 2) sampleParams).calls := by
  decide

/-- C10 as stated fails.  For a ShadedSmooth request and incoming parameters with cull style
`CULL_STYLE_NOTHING`, `RenderVp2` hands the renderer draw mode `DRAW_GEOM_SMOOTH` and cull
style `CULL_STYLE_BACK_UNLESS_DOUBLE_SIDED`, the legacy `Render` hands it `DRAW_SHADED_SMOOTH`
and `CULL_STYLE_NOTHING`.  For a Wireframe request and incoming cull style
`CULL_STYLE_BACK_UNLESS_DOUBLE_SIDED` the draw modes agree but the cull styles do not. -/
theorem dispatch_mapping_differs :
    handed (boundObject.RenderVp2 maya2016 openGLRenderer
        [sampleRequest .DRAW_SHADED_SMOOTH .kGouraudShaded] (sampleContext 1)
        sampleParams).calls
      = [(.DRAW_GEOM_SMOOTH, .CULL_STYLE_BACK_UNLESS_DOUBLE_SIDED)] ∧
    handed (boundObject.Render (sampleRequest .DRAW_SHADED_SMOOTH .kGouraudShaded).drawRequest
        sampleView sampleColor sampleParams).calls
      = [(.DRAW_SHADED_SMOOTH, .CULL_STYLE_NOTHING)] ∧
    handed (boundObject.RenderVp2 maya2016 openGLRenderer
        [sampleRequest .DRAW_WIREFRAME .kWireFrame] (sampleContext 1) backCullParams).calls
      = [(.DRAW_WIREFRAME, .CULL_STYLE_NOTHING)] ∧
    handed (boundObject.Render (sampleRequest .DRAW_WIREFRAME .kWireFrame).drawRequest
        sampleView sampleColor backCullParams).calls
      = [(.DRAW_WIREFRAME, .CULL_STYLE_BACK_UNLESS_DOUBLE_SIDED)] ∧
    handed (boundObject.RenderVp2 maya2016 openGLRenderer
        [sampleRequest .DRAW_SHADED_SMOOTH .kGouraudShaded] (sampleContext 1)
        sampleParams).calls
      ≠ handed (boundObject.Render
        (sampleRequest .DRAW_SHADED_SMOOTH .kGouraudShaded).drawRequest
        sampleView sampleColor sampleParams).calls := by
  decide

/-- C10, amended: for every bound object with a valid prim, every draw context past the
guards, every incoming render parameters and every request, the two dispatchers hand the
bound renderer one `Render` call each, with these draw modes and cull styles.  Wireframe and
Points: both hand `DRAW_WIREFRAME`, resp. `DRAW_POINTS`; ShadedFlat and ShadedSmooth:
`RenderVp2` hands `DRAW_GEOM_FLAT`, resp. `DRAW_GEOM_SMOOTH`, the legacy `Render` hands
`DRAW_SHADED_FLAT`, resp. `DRAW_SHADED_SMOOTH`.  `RenderVp2` sets the cull style
(`CULL_STYLE_NOTHING` for Wireframe and Points, `CULL_STYLE_BACK_UNLESS_DOUBLE_SIDED` for the
shaded kinds); the legacy `Render` passes the incoming cull style through. -/
theorem dispatch_mapping_amended (api : MayaApi) (self : UsdMayaGLHdRenderer)
    (theRenderer : Option MRenderer) (context : MDrawContext) (view : M3dView)
    (currentColor : GfVec4f) (params : RenderParams) (it : RequestData) (r : UsdImagingGL)
    (hb : self._renderer = some r) (hv : self._renderedPrim.isValid = true)
    (hp : vp2EarlyExit api theRenderer context = false) :
    (it.drawRequest.token = .DRAW_WIREFRAME →
      handed (self.RenderVp2 api theRenderer [it] context params).calls
        = [(.DRAW_WIREFRAME, .CULL_STYLE_NOTHING)] ∧
      handed (self.Render it.drawRequest view currentColor params).calls
        = [(.DRAW_WIREFRAME, params.cullStyle)]) ∧
    (it.drawRequest.token = .DRAW_POINTS →
      handed (self.RenderVp2 api theRenderer [it] context params).calls
        = [(.DRAW_POINTS, .CULL_STYLE_NOTHING)] ∧
      handed (self.Render it.drawRequest view currentColor params).calls
        = [(.DRAW_POINTS, params.cullStyle)]) ∧
    (it.drawRequest.token = .DRAW_SHADED_FLAT →
      handed (self.RenderVp2 api theRenderer [it] context params).calls
        = [(.DRAW_GEOM_FLAT, .CULL_STYLE_BACK_UNLESS_DOUBLE_SIDED)] ∧
      handed (self.Render it.drawRequest view currentColor params).calls
        = [(.DRAW_SHADED_FLAT, params.cullStyle)]) ∧
    (it.drawRequest.token = .DRAW_SHADED_SMOOTH →
      handed (self.RenderVp2 api theRenderer [it] context params).calls
        = [(.DRAW_GEOM_SMOOTH, .CULL_STYLE_BACK_UNLESS_DOUBLE_SIDED)] ∧
      handed (self.Render it.drawRequest view currentColor params).calls
        = [(.DRAW_SHADED_SMOOTH, params.cullStyle)]) := by
  have hm := handed_renderVp2 api self theRenderer [it] context params r hp hb
  refine ⟨?_, ?_, ?_, ?_⟩ <;> intro ht <;>
    refine ⟨by simp [hm, ht, vp2Mapping], ?_⟩ <;>
    simp [Render, hv, hb, legacySwitch, ht, handed]

/-- C10 amended, at a concrete input: a ShadedSmooth request, style word 1, incoming cull
style `CULL_STYLE_NOTHING`. -/
theorem dispatch_mapping_amended_witness :
    handed (boundObject.RenderVp2 maya2016 openGLRenderer
        [sampleRequest .DRAW_SHADED_SMOOTH .kGouraudShaded] (sampleContext 1)
        sampleParams).calls
      = [(.DRAW_GEOM_SMOOTH, .CULL_STYLE_BACK_UNLESS_DOUBLE_SIDED)] ∧
    handed (boundObject.Render (sampleRequest .DRAW_SHADED_SMOOTH .kGouraudShaded).drawRequest
        sampleView sampleColor sampleParams).calls
      = [(.DRAW_SHADED_SMOOTH, sampleParams.cullStyle)] :=
  (dispatch_mapping_amended maya2016 boundObject openGLRenderer (sampleContext 1) sampleView
    sampleColor sampleParams (sampleRequest .DRAW_SHADED_SMOOTH .kGouraudShaded)
    ⟨⟨"/World"⟩, []⟩ rfl rfl (by decide)).2.2.2 rfl

end UsdMayaGLHdRenderer

/-! ## Rounding to nearest -/

/-- The rounded integer is the floor or the one above it. -/
theorem roundHalfEven_bounds (q : ℚ) : ⌊q⌋ ≤ roundHalfEven q ∧ roundHalfEven q ≤ ⌊q⌋ + 1 := by
  unfold roundHalfEven
  split_ifs <;> constructor <;> omega

/-- An integer rounds to itself. -/
theorem roundHalfEven_intCast (n : ℤ) : roundHalfEven (n : ℚ) = n := by
  unfold roundHalfEven
  simp

/-- Rounding to the nearest integer is monotone. -/
theorem roundHalfEven_mono {a b : ℚ} (h : a ≤ b) : roundHalfEven a ≤ roundHalfEven b := by
  have hf : ⌊a⌋ ≤ ⌊b⌋ := Int.floor_mono h
  rcases hf.lt_or_eq with hlt | heq
  · have h1 := (roundHalfEven_bounds a).2
    have h2 := (roundHalfEven_bounds b).1
    omega
  · unfold roundHalfEven
    rw [heq]
    have hab : a - (⌊b⌋ : ℚ) ≤ b - (⌊b⌋ : ℚ) := by linarith
    split_ifs <;> first | omega | (exfalso; linarith)

theorem ulp_pos (t : ℕ) (emin : ℤ) (x : ℚ) : 0 < ulp t emin x := by
  unfold ulp
  positivity

theorem roundMagnitude_zero (t : ℕ) (emin : ℤ) : roundMagnitude t emin 0 = 0 := by
  unfold roundMagnitude
  have := roundHalfEven_intCast 0
  simp at this
  simp [this]

theorem roundMagnitude_nonneg (t : ℕ) (emin : ℤ) {x : ℚ} (hx : 0 ≤ x) :
    0 ≤ roundMagnitude t emin x := by
  unfold roundMagnitude
  have hu := ulp_pos t emin x
  have h0 : (0 : ℚ) ≤ x / ulp t emin x := div_nonneg hx hu.le
  have h1 : roundHalfEven ((0 : ℤ) : ℚ) ≤ roundHalfEven (x / ulp t emin x) :=
    roundHalfEven_mono (by simpa using h0)
  rw [roundHalfEven_intCast] at h1
  have h2 : (0 : ℚ) ≤ (roundHalfEven (x / ulp t emin x) : ℚ) := by exact_mod_cast h1
  exact mul_nonneg h2 hu.le

/-- A rounded positive magnitude does not leave its binade upwards. -/
theorem roundMagnitude_le (t : ℕ) (emin : ℤ) (x : ℚ) :
    roundMagnitude t emin x ≤ 2 ^ (binade emin x + 1) := by
  unfold roundMagnitude
  have hu := ulp_pos t emin x
  have hlt : x < (2 : ℚ) ^ (Int.log 2 x + 1) := by
    have := Int.lt_zpow_succ_log_self (b := 2) (by norm_num) x
    simpa using this
  have hle : (2 : ℚ) ^ (Int.log 2 x + 1) ≤ 2 ^ (binade emin x + 1) := by
    apply zpow_le_zpow_right₀ (by norm_num)
    unfold binade
    have := le_max_left (Int.log 2 x) emin
    omega
  have hsplit : (2 : ℚ) ^ (binade emin x + 1) = ((2 ^ (t + 1) : ℤ) : ℚ) * ulp t emin x := by
    unfold ulp
    push_cast
    rw [← zpow_natCast, ← zpow_add₀ (by norm_num)]
    congr 1
    push_cast
    ring
  have hq : x / ulp t emin x ≤ ((2 ^ (t + 1) : ℤ) : ℚ) := by
    rw [div_le_iff₀ hu]
    rw [← hsplit]
    exact (hlt.trans_le hle).le
  have h1 := roundHalfEven_mono hq
  rw [roundHalfEven_intCast] at h1
  have h2 : (roundHalfEven (x / ulp t emin x) : ℚ) ≤ ((2 ^ (t + 1) : ℤ) : ℚ) := by
    exact_mod_cast h1
  rw [hsplit]
  exact mul_le_mul_of_nonneg_right h2 hu.le

/-- A rounded normal magnitude does not leave its binade downwards. -/
theorem le_roundMagnitude (t : ℕ) (emin : ℤ) {x : ℚ} (hx : 0 < x)
    (hn : emin ≤ Int.log 2 x) : 2 ^ binade emin x ≤ roundMagnitude t emin x := by
  unfold roundMagnitude
  have hu := ulp_pos t emin x
  have hb : binade emin x = Int.log 2 x := by
    unfold binade
    exact max_eq_left hn
  have hge : (2 : ℚ) ^ (binade emin x) ≤ x := by
    rw [hb]
    have := Int.zpow_log_le_self (b := 2) (by norm_num) hx
    simpa using this
  have hsplit : (2 : ℚ) ^ (binade emin x) = ((2 ^ t : ℤ) : ℚ) * ulp t emin x := by
    unfold ulp
    push_cast
    rw [← zpow_natCast, ← zpow_add₀ (by norm_num)]
    congr 1
    ring
  have hq : ((2 ^ t : ℤ) : ℚ) ≤ x / ulp t emin x := by
    rw [le_div_iff₀ hu]
    rw [← hsplit]
    exact hge
  have h1 := roundHalfEven_mono hq
  rw [roundHalfEven_intCast] at h1
  have h2 : ((2 ^ t : ℤ) : ℚ) ≤ (roundHalfEven (x / ulp t emin x) : ℚ) := by
    exact_mod_cast h1
  rw [hsplit]
  exact mul_le_mul_of_nonneg_right h2 hu.le

theorem binade_mono (emin : ℤ) {a b : ℚ} (ha : 0 < a) (h : a ≤ b) :
    binade emin a ≤ binade emin b := by
  unfold binade
  exact max_le_max (Int.log_mono_right ha h) le_rfl

theorem roundMagnitude_mono (t : ℕ) (emin : ℤ) {a b : ℚ} (ha : 0 ≤ a) (h : a ≤ b) :
    roundMagnitude t emin a ≤ roundMagnitude t emin b := by
  rcases ha.lt_or_eq with hpos | hzero
  · have hbpos : 0 < b := hpos.trans_le h
    rcases (binade_mono emin hpos h).lt_or_eq with hlt | heq
    · have hnb : emin ≤ Int.log 2 b := by
        by_contra hc
        have h1 : binade emin b = emin := by
          unfold binade
          exact max_eq_right (by omega)
        have h2 : emin ≤ binade emin a := le_max_right _ _
        omega
      calc roundMagnitude t emin a ≤ 2 ^ (binade emin a + 1) := roundMagnitude_le t emin a
        _ ≤ 2 ^ binade emin b := zpow_le_zpow_right₀ (by norm_num) (by omega)
        _ ≤ roundMagnitude t emin b := le_roundMagnitude t emin hbpos hnb
    · have hu : ulp t emin a = ulp t emin b := by
        unfold ulp
        rw [heq]
      unfold roundMagnitude
      rw [hu]
      have hub := ulp_pos t emin b
      have hq : a / ulp t emin b ≤ b / ulp t emin b := div_le_div_of_nonneg_right h hub.le
      have h1 := roundHalfEven_mono hq
      have h2 : (roundHalfEven (a / ulp t emin b) : ℚ)
          ≤ (roundHalfEven (b / ulp t emin b) : ℚ) := by
        exact_mod_cast h1
      exact mul_le_mul_of_nonneg_right h2 hub.le
  · subst hzero
    rw [roundMagnitude_zero]
    exact roundMagnitude_nonneg t emin h

/-- Rounding to nearest is monotone. -/
theorem roundNearest_mono (t : ℕ) (emin : ℤ) {a b : ℚ} (h : a ≤ b) :
    roundNearest t emin a ≤ roundNearest t emin b := by
  unfold roundNearest
  split_ifs with ha hb hb
  · exact neg_le_neg (roundMagnitude_mono t emin (by linarith) (by linarith))
  · have h1 := roundMagnitude_nonneg t emin (x := -a) (by linarith)
    have h2 := roundMagnitude_nonneg t emin (x := b) (by linarith)
    linarith
  · exfalso
    linarith
  · exact roundMagnitude_mono t emin (by linarith) h

theorem roundNearest_nonneg (t : ℕ) (emin : ℤ) {q : ℚ} (h : 0 ≤ q) :
    0 ≤ roundNearest t emin q := by
  unfold roundNearest
  rw [if_neg (by linarith)]
  exact roundMagnitude_nonneg t emin h

/-- An integer strictly closer than one half is the rounded integer. -/
theorem roundHalfEven_of_near {q : ℚ} (n : ℤ) (h : |q - n| < 1 / 2) : roundHalfEven q = n := by
  rw [abs_lt] at h
  obtain ⟨h1, h2⟩ := h
  by_cases hq : (n : ℚ) ≤ q
  · have hf : ⌊q⌋ = n := by
      rw [Int.floor_eq_iff]
      constructor <;> linarith
    unfold roundHalfEven
    rw [hf, if_pos h2]
  · have hf : ⌊q⌋ = n - 1 := by
      rw [Int.floor_eq_iff]
      push_cast
      constructor <;> linarith
    unfold roundHalfEven
    rw [hf]
    push_cast
    rw [if_neg (by linarith), if_pos (by linarith)]
    ring

/-- The binade of a value bracketed by two consecutive powers of two. -/
theorem binade_eq (emin : ℤ) {x : ℚ} (e : ℤ) (he : emin ≤ e) (hlo : 2 ^ e ≤ x)
    (hhi : x < 2 ^ (e + 1)) : binade emin x = e := by
  have hx : 0 < x := lt_of_lt_of_le (by positivity) hlo
  have h1 : e ≤ Int.log 2 x := by
    rw [← Int.zpow_le_iff_le_log (by norm_num) hx]
    simpa using hlo
  have h2 : Int.log 2 x < e + 1 := by
    rw [← Int.lt_zpow_iff_log_lt (by norm_num) hx]
    simpa using hhi
  unfold binade
  rw [max_eq_left (by omega)]
  omega

/-- Rounding a non-negative value whose binade and nearest significand are known. -/
theorem roundNearest_eval (t : ℕ) (emin : ℤ) {x : ℚ} (e n : ℤ) (he : emin ≤ e)
    (hlo : 2 ^ e ≤ x) (hhi : x < 2 ^ (e + 1)) (hn : |x / 2 ^ (e - t) - n| < 1 / 2) :
    roundNearest t emin x = n * 2 ^ (e - t) := by
  have hx : 0 < x := lt_of_lt_of_le (by positivity) hlo
  unfold roundNearest
  rw [if_neg (by linarith)]
  unfold roundMagnitude ulp
  rw [binade_eq emin e he hlo hhi, roundHalfEven_of_near n hn]

theorem roundNearest_zero (t : ℕ) (emin : ℤ) : roundNearest t emin 0 = 0 := by
  unfold roundNearest
  simp [roundMagnitude_zero]

/-- The rounded integer is within one half of the value. -/
theorem roundHalfEven_error (q : ℚ) : |(roundHalfEven q : ℚ) - q| ≤ 1 / 2 := by
  have h1 : (⌊q⌋ : ℚ) ≤ q := Int.floor_le q
  have h2 : q < ⌊q⌋ + 1 := Int.lt_floor_add_one q
  rw [abs_le]
  unfold roundHalfEven
  split_ifs <;> push_cast <;> constructor <;> linarith

/-- A rounded magnitude is within half a unit in the last place of the exact value. -/
theorem roundMagnitude_error (t : ℕ) (emin : ℤ) (x : ℚ) :
    |roundMagnitude t emin x - x| ≤ ulp t emin x / 2 := by
  have hu := ulp_pos t emin x
  have he := roundHalfEven_error (x / ulp t emin x)
  have hx : roundMagnitude t emin x - x =
      ((roundHalfEven (x / ulp t emin x) : ℚ) - x / ulp t emin x) * ulp t emin x := by
    unfold roundMagnitude
    field_simp
  rw [hx, abs_mul, abs_of_pos hu]
  calc |(roundHalfEven (x / ulp t emin x) : ℚ) - x / ulp t emin x| * ulp t emin x
      ≤ 1 / 2 * ulp t emin x := mul_le_mul_of_nonneg_right he hu.le
    _ = ulp t emin x / 2 := by ring

/-- The unit in the last place of a positive value is at most the value scaled by `2 ^ (-t)`,
or else the spacing of the subnormal numbers. -/
theorem ulp_le (t : ℕ) (emin : ℤ) {x : ℚ} (hx : 0 < x) :
    ulp t emin x ≤ x * 2 ^ (-(t : ℤ)) + 2 ^ (emin - t) := by
  unfold ulp binade
  rcases le_total (Int.log 2 x) emin with h | h
  · rw [max_eq_right h]
    have : 0 ≤ x * (2 : ℚ) ^ (-(t : ℤ)) := by positivity
    linarith
  · rw [max_eq_left h]
    have h1 : (2 : ℚ) ^ Int.log 2 x ≤ x := by
      have := Int.zpow_log_le_self (b := 2) (by norm_num) hx
      simpa using this
    have h2 : (2 : ℚ) ^ (Int.log 2 x - t) = 2 ^ Int.log 2 x * 2 ^ (-(t : ℤ)) := by
      rw [← zpow_add₀ (by norm_num)]
      congr 1
    rw [h2]
    have h3 : (0 : ℚ) < 2 ^ (-(t : ℤ)) := by positivity
    have h4 : (0 : ℚ) < 2 ^ (emin - (t : ℤ)) := by positivity
    have := mul_le_mul_of_nonneg_right h1 h3.le
    linarith

/-- Rounding to nearest errs by at most half of `2 ^ (-t)` relative to the value, plus half
the spacing of the subnormal numbers. -/
theorem roundNearest_error (t : ℕ) (emin : ℤ) (x : ℚ) :
    |roundNearest t emin x - x| ≤ (|x| * 2 ^ (-(t : ℤ)) + 2 ^ (emin - t)) / 2 := by
  unfold roundNearest
  rcases lt_trichotomy x 0 with hneg | hzero | hpos
  · rw [if_pos hneg]
    have h1 := roundMagnitude_error t emin (-x)
    have h2 := ulp_le t emin (x := -x) (by linarith)
    rw [abs_of_neg hneg]
    have h3 : -roundMagnitude t emin (-x) - x = -(roundMagnitude t emin (-x) - -x) := by ring
    rw [h3, abs_neg]
    linarith
  · subst hzero
    simp [roundMagnitude_zero]
    positivity
  · rw [if_neg (by linarith)]
    have h1 := roundMagnitude_error t emin x
    have h2 := ulp_le t emin hpos
    rw [abs_of_pos hpos]
    linarith

/-- Rounding to `float`: relative error `2 ^ (-24)`, up to half the subnormal spacing. -/
theorem toFloat_error (x : ℚ) : |toFloat x - x| ≤ |x| / 2 ^ 24 + 1 / 2 ^ 150 := by
  have h := roundNearest_error 23 (-126) x
  unfold toFloat
  have e1 : (2 : ℚ) ^ (-((23 : ℕ) : ℤ)) = 1 / 2 ^ 23 := by norm_num
  have e2 : (2 : ℚ) ^ ((-126 : ℤ) - ((23 : ℕ) : ℤ)) = 1 / 2 ^ 149 := by
    norm_num [zpow_neg]
  rw [e1, e2] at h
  calc |roundNearest 23 (-126) x - x| ≤ (|x| * (1 / 2 ^ 23) + 1 / 2 ^ 149) / 2 := h
    _ = |x| / 2 ^ 24 + 1 / 2 ^ 150 := by ring

/-- Rounding to `double`: relative error `2 ^ (-53)`, up to half the subnormal spacing. -/
theorem toDouble_error (x : ℚ) : |toDouble x - x| ≤ |x| / 2 ^ 53 + 1 / 2 ^ 1075 := by
  have h := roundNearest_error 52 (-1022) x
  unfold toDouble
  have e1 : (2 : ℚ) ^ (-((52 : ℕ) : ℤ)) = 1 / 2 ^ 52 := by norm_num
  have e2 : (2 : ℚ) ^ ((-1022 : ℤ) - ((52 : ℕ) : ℤ)) = 1 / 2 ^ 1074 := by
    norm_num [zpow_neg]
  rw [e1, e2] at h
  calc |roundNearest 52 (-1022) x - x| ≤ (|x| * (1 / 2 ^ 52) + 1 / 2 ^ 1074) / 2 := h
    _ = |x| / 2 ^ 53 + 1 / 2 ^ 1075 := by ring

/-- The level 5 is a `float`. -/
theorem toFloat_five : toFloat 5 = 5 := by
  unfold toFloat
  rw [roundNearest_eval 23 (-126) 2 10485760 (by norm_num) (by norm_num) (by norm_num)
    (by norm_num [abs_lt])]
  norm_num

/-- The `float` literal `0.1f`. -/
theorem toFloat_tenth : toFloat (1 / 10) = 13421773 / 134217728 := by
  unfold toFloat
  rw [roundNearest_eval 23 (-126) (-4) 13421773 (by norm_num) (by norm_num) (by norm_num)
    (by norm_num [abs_lt])]
  norm_num

namespace UsdMayaGLHdRenderer

/-! ## Subdivision level to complexity -/

/-- Each operation of the expression is monotone in the level, so the result is. -/
theorem subdLevelToComplexity_mono {a b : ℤ} (h : a ≤ b) :
    SubdLevelToComplexity a ≤ SubdLevelToComplexity b := by
  unfold SubdLevelToComplexity toFloat toDouble
  apply roundNearest_mono
  apply roundNearest_mono
  have hc : (0 : ℚ) ≤ roundNearest 23 (-126) (1 / 10) := roundNearest_nonneg _ _ (by norm_num)
  have hab : roundNearest 23 (-126) (a : ℚ) ≤ roundNearest 23 (-126) (b : ℚ) :=
    roundNearest_mono _ _ (by exact_mod_cast h)
  have := roundNearest_mono 23 (-126) (mul_le_mul_of_nonneg_right hab hc)
  linarith

/-- Level 0: every intermediate value is exact. -/
theorem subdLevelToComplexity_zero : SubdLevelToComplexity 0 = 1 := by
  have h1 : toFloat 1 = 1 := by
    unfold toFloat
    rw [roundNearest_eval 23 (-126) 0 8388608 (by norm_num) (by norm_num) (by norm_num)
      (by norm_num [abs_lt])]
    norm_num
  have h2 : toDouble 1 = 1 := by
    unfold toDouble
    rw [roundNearest_eval 52 (-1022) 0 4503599627370496 (by norm_num) (by norm_num)
      (by norm_num) (by norm_num [abs_lt])]
    norm_num
  have h0 : toFloat 0 = 0 := roundNearest_zero _ _
  unfold SubdLevelToComplexity
  simp [h0, h1, h2]

/-- Level 5: the product `5 * 0.1f` exceeds one half by `2 ^ (-27)` and rounds to one half. -/
theorem subdLevelToComplexity_five : SubdLevelToComplexity 5 = 3 / 2 := by
  have hp : toFloat (5 * (13421773 / 134217728)) = 1 / 2 := by
    unfold toFloat
    rw [roundNearest_eval 23 (-126) (-1) 8388608 (by norm_num) (by norm_num) (by norm_num)
      (by norm_num [abs_lt])]
    norm_num
  have h1 : toDouble (1 + 1 / 2) = 3 / 2 := by
    unfold toDouble
    rw [roundNearest_eval 52 (-1022) 0 6755399441055744 (by norm_num) (by norm_num)
      (by norm_num) (by norm_num [abs_lt])]
    norm_num
  have h2 : toFloat (3 / 2) = 3 / 2 := by
    unfold toFloat
    rw [roundNearest_eval 23 (-126) 0 12582912 (by norm_num) (by norm_num) (by norm_num)
      (by norm_num [abs_lt])]
    norm_num
  unfold SubdLevelToComplexity
  have h5 : ((5 : ℤ) : ℚ) = 5 := by norm_num
  rw [h5, toFloat_five, toFloat_tenth, hp, h1, h2]

/-- The value returned for a level is the exact `1 + level / 10` up to the rounding of the
five floating-point operations. -/
theorem subdLevelToComplexity_error (level : ℤ) :
    |SubdLevelToComplexity level - (1 + (level : ℚ) / 10)|
      ≤ (1 + |(level : ℚ)| / 10) / 2 ^ 22 := by
  unfold SubdLevelToComplexity
  rw [toFloat_tenth]
  generalize (level : ℚ) = x
  set a := toFloat x with ha
  set b := toFloat (a * (13421773 / 134217728)) with hb
  set d := toDouble (1 + b) with hd
  set f := toFloat d with hf
  have e1 : |a - x| ≤ |x| / 2 ^ 24 + 1 / 2 ^ 150 := toFloat_error x
  have e2 : |b - a * (13421773 / 134217728)|
      ≤ |a * (13421773 / 134217728)| / 2 ^ 24 + 1 / 2 ^ 150 := toFloat_error _
  have e3 : |d - (1 + b)| ≤ |1 + b| / 2 ^ 53 + 1 / 2 ^ 1075 := toDouble_error _
  have e4 : |f - d| ≤ |d| / 2 ^ 24 + 1 / 2 ^ 150 := toFloat_error _
  have t1 : |a| ≤ |x| + |a - x| := by
    have := abs_add (a - x) x
    simp only [sub_add_cancel] at this
    linarith
  have t2 : |a * (13421773 / 134217728)| = |a| * (13421773 / 134217728) := by
    rw [abs_mul, abs_of_pos (by norm_num : (0 : ℚ) < 13421773 / 134217728)]
  have t3 : |a * (13421773 / 134217728) - x / 10|
      ≤ |a - x| * (13421773 / 134217728) + |x| * (1 / 671088640) := by
    have h : a * (13421773 / 134217728) - x / 10
        = (a - x) * (13421773 / 134217728) + x * (1 / 671088640) := by ring
    rw [h]
    calc |(a - x) * (13421773 / 134217728) + x * (1 / 671088640)|
        ≤ |(a - x) * (13421773 / 134217728)| + |x * (1 / 671088640)| := abs_add _ _
      _ = |a - x| * (13421773 / 134217728) + |x| * (1 / 671088640) := by
          rw [abs_mul, abs_mul, abs_of_pos (by norm_num : (0 : ℚ) < 13421773 / 134217728),
            abs_of_pos (by norm_num : (0 : ℚ) < 1 / 671088640)]
  have t4 : |b - x / 10| ≤ |b - a * (13421773 / 134217728)|
      + |a * (13421773 / 134217728) - x / 10| := abs_sub_le _ _ _
  have t5 : |1 + b| ≤ 1 + |x| / 10 + |b - x / 10| := by
    have h : 1 + b = (1 + x / 10) + (b - x / 10) := by ring
    rw [h]
    calc |(1 + x / 10) + (b - x / 10)| ≤ |1 + x / 10| + |b - x / 10| := abs_add _ _
      _ ≤ 1 + |x| / 10 + |b - x / 10| := by
          have := abs_add (1 : ℚ) (x / 10)
          rw [abs_one, abs_div, abs_of_pos (by norm_num : (0 : ℚ) < 10)] at this
          linarith
  have t6 : |d| ≤ |1 + b| + |d - (1 + b)| := by
    have := abs_add (d - (1 + b)) (1 + b)
    simp only [sub_add_cancel] at this
    linarith
  have t7 : |f - (1 + x / 10)| ≤ |f - d| + |d - (1 + b)| + |b - x / 10| := by
    have h : f - (1 + x / 10) = (f - d) + (d - (1 + b)) + (b - x / 10) := by ring
    rw [h]
    calc |(f - d) + (d - (1 + b)) + (b - x / 10)|
        ≤ |(f - d) + (d - (1 + b))| + |b - x / 10| := abs_add _ _
      _ ≤ |f - d| + |d - (1 + b)| + |b - x / 10| := by
          have := abs_add (f - d) (d - (1 + b))
          linarith
  have hx0 : 0 ≤ |x| := abs_nonneg x
  rw [t2] at e2
  have c1 : (1 : ℚ) / 2 ^ 150 ≤ 1 / 2 ^ 60 := by norm_num
  have c2 : (1 : ℚ) / 2 ^ 1075 ≤ 1 / 2 ^ 60 := by norm_num
  norm_num at e1 e2 e3 e4 t3 c1 c2 ⊢
  linarith

/-- C6: `SubdLevelToComplexity`, the IEEE evaluation of `1.0 + float(level) * 0.1f`, is the
linear map `1 + level / 10` up to the rounding of its floating-point operations (for every
level it lies within `(1 + |level| / 10) / 2 ^ 22` of it), gives exactly 1.0 at level 0 and
exactly 1.5 at level 5, and is monotonic non-decreasing: for all integer levels `a ≤ b`,
`SubdLevelToComplexity a ≤ SubdLevelToComplexity b`. -/
theorem subdLevelToComplexity_spec :
    (∀ level : ℤ, |SubdLevelToComplexity level - (1 + (level : ℚ) / 10)|
      ≤ (1 + |(level : ℚ)| / 10) / 2 ^ 22) ∧
    SubdLevelToComplexity 0 = 1 ∧ SubdLevelToComplexity 5 = 3 / 2 ∧
    ∀ a b : ℤ, a ≤ b → SubdLevelToComplexity a ≤ SubdLevelToComplexity b :=
  ⟨subdLevelToComplexity_error, subdLevelToComplexity_zero, subdLevelToComplexity_five,
    fun _ _ h => subdLevelToComplexity_mono h⟩

/-- C6, at concrete levels: level 3 against level 4. -/
theorem subdLevelToComplexity_spec_witness :
    (3 : ℤ) ≤ 4 ∧ SubdLevelToComplexity 3 ≤ SubdLevelToComplexity 4 :=
  ⟨by decide, subdLevelToComplexity_spec.2.2.2 3 4 (by decide)⟩

end UsdMayaGLHdRenderer

end PxrUsdMayaGL
